import Mathlib

/-!
Shallow embedding of the CLAP plugin-side adapter (examples/plugins/plugin.cc)
and proofs about its lifecycle state machine, thread-affinity guards,
extension negotiation and parameter/audio-port validation layer.

The adapter class declaration (plugin.hh) is not among the sources; the
plugin-author virtuals it declares are modelled as a table of author-chosen
results (structure Author below), and the few base-class behaviours the spec
attributes to plugin.hh are modelled from the spec and marked as such.
C++ asserts are modelled as no-ops (release semantics).
-/

namespace Clap

/-- Modelled from the spec: clap_process_status is defined in the ABI header
include/clap/clap.h, which is not among the sources.  The spec only requires
the explicit processing-error status to be distinguishable from the statuses
a plugin author may return. -/
inductive ProcessStatus where
  | error
  | other (code : Nat)
deriving DecidableEq, Repr

def CLAP_PROCESS_ERROR : ProcessStatus := ProcessStatus.error

/-- One invocation of a plugin-author virtual (a call that crosses from the
adapter into plugin-author code).  Recorded in order, so that theorems can
state which author hooks a given ABI entry point does or does not reach. -/
inductive HookCall where
  | initHook
  | activate (sampleRate : Int)
  | deactivate
  | startProcessing
  | stopProcessing
  | process
  | extensionHook (id : String)
  | paramsCount
  | paramsInfo (index : Int)
  | paramsEnumValue (paramId : Nat)
  | paramsValue (paramId : Nat)
  | paramsSetValue (paramId : Nat)
  | paramsValueToText (paramId : Nat)
  | paramsTextToValue (paramId : Nat)
  | audioPortsSetConfig (configId : Nat)
deriving DecidableEq, Repr

/-- The host's clap_host_thread_check capability table.  Each field models a
function-pointer slot: none is a null pointer, some b is a function that
reports b for the calling thread during the call being modelled. -/
structure ThreadCheck where
  is_main_thread : Option Bool
  is_audio_thread : Option Bool
deriving DecidableEq, Repr

/-- The possible non-null results of the inbound extension query
(plugin.cc clapExtension): one of the four adapter-provided interface
tables, or a table supplied by the plugin author's fallback. -/
inductive ExtTable where
  | pluginRender
  | pluginTrackInfo
  | pluginAudioPorts
  | pluginParams
  | authorTable (tag : String)
deriving DecidableEq, Repr

/-- The plugin author's side of the adapter: the results of the virtuals a
concrete plugin overrides (declared in plugin.hh, not among the sources).
Each field fixes what the author's hook returns; the adapter never inspects
these beyond using the returned values. -/
structure Author where
  initResult : Bool
  activateResult : Int → Bool
  startProcessingResult : Bool
  processResult : ProcessStatus
  paramsCountValue : Nat
  paramsInfoResult : Int → Option Nat
  paramsEnumValueResult : Nat → Bool
  paramsValueResult : Nat → Bool
  paramsSetValueResult : Nat → Bool
  paramsValueToTextResult : Nat → Bool
  paramsTextToValueResult : Nat → Bool
  audioPortsSetConfigResult : Nat → Bool
  implementsAudioPortsFlag : Bool
  implementsParamsFlag : Bool
  extensionFallback : String → Option String

/-- The clap_plugin ABI function-pointer table, one Bool per slot:
true means the slot has been assigned a function, false means it is null
(plugin.cc constructor, lines 12-23, and clapInit, lines 30-44). -/
structure PluginTable where
  hasInit : Bool
  hasDestroy : Bool
  hasExtension : Bool
  hasProcess : Bool
  hasActivate : Bool
  hasDeactivate : Bool
  hasStartProcessing : Bool
  hasStopProcessing : Bool
deriving DecidableEq, Repr

/-- One adapter instance: the ABI table, the lifecycle state, the stored
host thread-check capability, the author's hook table, and two observables:
the host-misbehaving diagnostics reported so far and the author hooks
invoked so far.  The initial values of isActive_, isProcessing_ and
sampleRate_ are member initialisers in plugin.hh (not among the sources);
they are modelled from the spec: sample rate must be 0 when inactive and the
processing flag is valid only while active, so an instance starts inactive,
not processing, with sample rate 0. -/
structure Plugin where
  author : Author
  hostProvidesThreadCheck : Option ThreadCheck
  plugin_ : PluginTable
  hostThreadCheck_ : Option ThreadCheck
  isActive_ : Bool
  isProcessing_ : Bool
  sampleRate_ : Int
  misbehaviorLog : List String
  calls : List HookCall

/-- Record an author-hook invocation. -/
def Plugin.callHook (p : Plugin) (c : HookCall) : Plugin :=
  { p with calls := p.calls ++ [c] }

/-- Plugin.hostMisbehaving (plugin.cc line 416): report a protocol violation
by the host.  The sink (host log capability versus the local fallback
stream, plugin.cc log, lines 409-414) is I/O and is modelled as appending
the message to the diagnostic list. -/
def Plugin.hostMisbehaving (p : Plugin) (msg : String) : Plugin :=
  { p with misbehaviorLog := p.misbehaviorLog ++ [msg] }

/-- Plugin.canUseThreadCheck (plugin.cc lines 424-427): the stored
thread-check capability is usable only if the table and both of its
function pointers are present. -/
def Plugin.canUseThreadCheck (p : Plugin) : Bool :=
  match p.hostThreadCheck_ with
  | none => false
  | some t => t.is_audio_thread.isSome && t.is_main_thread.isSome

/-- Outcome of a thread-affinity guard: either control continues with the
given state, or the process is terminated; reported says whether a
host-misbehaving diagnostic was emitted before terminating. -/
inductive GuardOut where
  | passed (p : Plugin)
  | terminated (reported : Bool) (p : Plugin)

/-- Plugin.checkMainThread (plugin.cc lines 433-439): return silently when
the capability or its main-thread query is absent or the query reports the
main thread; otherwise terminate without reporting. -/
def Plugin.checkMainThread (p : Plugin) : GuardOut :=
  match p.hostThreadCheck_ with
  | none => GuardOut.passed p
  | some t =>
    match t.is_main_thread with
    | none => GuardOut.passed p
    | some true => GuardOut.passed p
    | some false => GuardOut.terminated false p

/-- Plugin.ensureMainThread (plugin.cc lines 441-451): like checkMainThread
but reports a host-misbehaving diagnostic before terminating. -/
def Plugin.ensureMainThread (p : Plugin) (method : String) : GuardOut :=
  match p.hostThreadCheck_ with
  | none => GuardOut.passed p
  | some t =>
    match t.is_main_thread with
    | none => GuardOut.passed p
    | some true => GuardOut.passed p
    | some false =>
      GuardOut.terminated true
        (p.hostMisbehaving ("Host called the method " ++ method ++
          "() on wrong thread! It must be called on main thread!"))

/-- Plugin.ensureAudioThread (plugin.cc lines 453-463). -/
def Plugin.ensureAudioThread (p : Plugin) (method : String) : GuardOut :=
  match p.hostThreadCheck_ with
  | none => GuardOut.passed p
  | some t =>
    match t.is_audio_thread with
    | none => GuardOut.passed p
    | some true => GuardOut.passed p
    | some false =>
      GuardOut.terminated true
        (p.hostMisbehaving ("Host called the method " ++ method ++
          "() on wrong thread! It must be called on audio thread!"))

/-- Result of an ABI entry point: the call either returns a value with the
new adapter state, or never returns because a guard terminated the
process (the state at termination is kept so that theorems can speak about
the diagnostics reported before the abort). -/
inductive Res (α : Type) where
  | terminated (p : Plugin)
  | ok (a : α) (p : Plugin)

def Res.state {α : Type} : Res α → Plugin
  | Res.terminated p => p
  | Res.ok _ p => p

def Res.value? {α : Type} : Res α → Option α
  | Res.terminated _ => none
  | Res.ok a _ => some a

/-! Author virtuals.  Each wrapper records the hook invocation and returns
the author-chosen result.  These correspond to the virtual methods declared
in plugin.hh (not among the sources); a concrete plugin's override only
chooses the returned value. -/

def Plugin.init (p : Plugin) : Bool × Plugin :=
  (p.author.initResult, p.callHook HookCall.initHook)

def Plugin.activate (p : Plugin) (sample_rate : Int) : Bool × Plugin :=
  (p.author.activateResult sample_rate, p.callHook (HookCall.activate sample_rate))

/-- Modelled from the spec: the adapter-side deactivate lives in plugin.hh,
which is not among the sources.  Per the spec it delegates to the plugin
author's deactivate hook and, on return, the state is Inactive and the
sample rate resets to 0. -/
def Plugin.deactivate (p : Plugin) : Plugin :=
  let q := p.callHook HookCall.deactivate
  { q with isActive_ := false, sampleRate_ := 0 }

def Plugin.startProcessing (p : Plugin) : Bool × Plugin :=
  (p.author.startProcessingResult, p.callHook HookCall.startProcessing)

def Plugin.stopProcessing (p : Plugin) : Plugin :=
  p.callHook HookCall.stopProcessing

def Plugin.process (p : Plugin) : ProcessStatus × Plugin :=
  (p.author.processResult, p.callHook HookCall.process)

def Plugin.extension (p : Plugin) (id : String) : Option String × Plugin :=
  (p.author.extensionFallback id, p.callHook (HookCall.extensionHook id))

def Plugin.implementsAudioPorts (p : Plugin) : Bool :=
  p.author.implementsAudioPortsFlag

def Plugin.implementsParams (p : Plugin) : Bool :=
  p.author.implementsParamsFlag

def Plugin.isActive (p : Plugin) : Bool := p.isActive_

def Plugin.paramsCount (p : Plugin) : Nat × Plugin :=
  (p.author.paramsCountValue, p.callHook HookCall.paramsCount)

/-- The author's paramsInfo hook: some id means the hook returned true and
filled the info record with that parameter id; none means it returned
false. -/
def Plugin.paramsInfo (p : Plugin) (index : Int) : Option Nat × Plugin :=
  (p.author.paramsInfoResult index, p.callHook (HookCall.paramsInfo index))

def Plugin.paramsEnumValue (p : Plugin) (param_id : Nat) : Bool × Plugin :=
  (p.author.paramsEnumValueResult param_id, p.callHook (HookCall.paramsEnumValue param_id))

def Plugin.paramsValue (p : Plugin) (param_id : Nat) : Bool × Plugin :=
  (p.author.paramsValueResult param_id, p.callHook (HookCall.paramsValue param_id))

def Plugin.paramsSetValue (p : Plugin) (param_id : Nat) : Bool × Plugin :=
  (p.author.paramsSetValueResult param_id, p.callHook (HookCall.paramsSetValue param_id))

def Plugin.paramsValueToText (p : Plugin) (param_id : Nat) : Bool × Plugin :=
  (p.author.paramsValueToTextResult param_id, p.callHook (HookCall.paramsValueToText param_id))

def Plugin.paramsTextToValue (p : Plugin) (param_id : Nat) : Bool × Plugin :=
  (p.author.paramsTextToValueResult param_id, p.callHook (HookCall.paramsTextToValue param_id))

def Plugin.audioPortsSetConfig (p : Plugin) (config_id : Nat) : Bool × Plugin :=
  (p.author.audioPortsSetConfigResult config_id, p.callHook (HookCall.audioPortsSetConfig config_id))

/-- Plugin::Plugin (plugin.cc lines 12-23): the constructor wires only init
and destroy; extension, process, activate, deactivate, start_processing and
stop_processing stay null.  The stored capability pointers start null
(member initialisers in plugin.hh, modelled from the spec: the capability
set is populated once during init). -/
def Plugin.construct (author : Author) (hostProvidesThreadCheck : Option ThreadCheck) : Plugin :=
  { author := author
    hostProvidesThreadCheck := hostProvidesThreadCheck
    plugin_ :=
      { hasInit := true
        hasDestroy := true
        hasExtension := false
        hasProcess := false
        hasActivate := false
        hasDeactivate := false
        hasStartProcessing := false
        hasStopProcessing := false }
    hostThreadCheck_ := none
    isActive_ := false
    isProcessing_ := false
    sampleRate_ := 0
    misbehaviorLog := []
    calls := [] }

/-- Plugin.initInterfaces (plugin.cc lines 493-507): query the host's
extension lookup once per known id and store the results.  Only the
thread-check capability participates in the modelled claims; the other
capability pointers are not represented. -/
def Plugin.initInterfaces (p : Plugin) : Plugin :=
  { p with hostThreadCheck_ := p.hostProvidesThreadCheck }

/-- Plugin.initTrackInfo (plugin.cc lines 198-206).  The track-info cache
itself is outside the modelled claims; only its checkMainThread consistency
assertion is represented. -/
def Plugin.initTrackInfo (p : Plugin) : GuardOut :=
  p.checkMainThread

/-- Plugin.clapInit (plugin.cc lines 30-44): assign the remaining ABI
slots, populate the capability set, check the thread, fetch track info,
then return the author's init result. -/
def Plugin.clapInit (p : Plugin) : Res Bool :=
  let p1 := { p with plugin_ :=
    { p.plugin_ with
      hasExtension := true
      hasProcess := true
      hasActivate := true
      hasDeactivate := true
      hasStartProcessing := true
      hasStopProcessing := true } }
  let p2 := p1.initInterfaces
  match p2.ensureMainThread "clap_plugin.init" with
  | GuardOut.terminated _ q => Res.terminated q
  | GuardOut.passed q =>
    match q.initTrackInfo with
    | GuardOut.terminated _ r => Res.terminated r
    | GuardOut.passed r =>
      let (b, r1) := r.init
      Res.ok b r1

/-- Plugin.clapDeactivate (plugin.cc lines 91-101). -/
def Plugin.clapDeactivate (p : Plugin) : Res Unit :=
  match p.ensureMainThread "clap_plugin.deactivate" with
  | GuardOut.terminated _ q => Res.terminated q
  | GuardOut.passed q =>
    if q.isActive_ = false then
      Res.ok () (q.hostMisbehaving "The plugin was deactivated twice.")
    else
      Res.ok () q.deactivate

/-- Plugin.clapActivate (plugin.cc lines 52-89).  The asserts at lines
77-78 and 81-82 are no-ops here (release semantics). -/
def Plugin.clapActivate (p : Plugin) (sample_rate : Int) : Res Bool :=
  match p.ensureMainThread "clap_plugin.activate" with
  | GuardOut.terminated _ q => Res.terminated q
  | GuardOut.passed q =>
    let afterDup : Res Unit :=
      if q.isActive_ then
        let q1 := q.hostMisbehaving "Plugin was activated twice"
        if sample_rate ≠ q1.sampleRate_ then
          let q2 := q1.hostMisbehaving
            ("The plugin was activated twice and with different sample rates: " ++
             toString q1.sampleRate_ ++ " and " ++ toString sample_rate ++
             ". The host must deactivate the plugin first.\nSimulating deactivation.")
          q2.clapDeactivate
        else Res.ok () q1
      else Res.ok () q
    match afterDup with
    | Res.terminated r => Res.terminated r
    | Res.ok _ r =>
      if sample_rate ≤ 0 then
        Res.ok false (r.hostMisbehaving
          ("The plugin was activated with an invalid sample rates: " ++ toString sample_rate))
      else
        let (okA, r1) := r.activate sample_rate
        if okA = false then
          Res.ok false r1
        else
          Res.ok true { r1 with isActive_ := true, sampleRate_ := sample_rate }

/-- Plugin.clapStartProcessing (plugin.cc lines 103-119). -/
def Plugin.clapStartProcessing (p : Plugin) : Res Bool :=
  match p.ensureAudioThread "clap_plugin.start_processing" with
  | GuardOut.terminated _ q => Res.terminated q
  | GuardOut.passed q =>
    if q.isActive_ = false then
      Res.ok false (q.hostMisbehaving
        "Host called clap_plugin.start_processing() on a deactivated plugin")
    else if q.isProcessing_ then
      Res.ok true (q.hostMisbehaving "Host called clap_plugin.start_processing() twice")
    else
      let (b, q1) := q.startProcessing
      Res.ok b { q1 with isProcessing_ := b }

/-- Plugin.clapStopProcessing (plugin.cc lines 121-137). -/
def Plugin.clapStopProcessing (p : Plugin) : Res Unit :=
  match p.ensureAudioThread "clap_plugin.stop_processing" with
  | GuardOut.terminated _ q => Res.terminated q
  | GuardOut.passed q =>
    if q.isActive_ = false then
      Res.ok () (q.hostMisbehaving
        "Host called clap_plugin.stop_processing() on a deactivated plugin")
    else if q.isProcessing_ = false then
      Res.ok () (q.hostMisbehaving "Host called clap_plugin.stop_processing() twice")
    else
      let q1 := q.stopProcessing
      Res.ok () { q1 with isProcessing_ := false }

/-- Plugin.clapProcess (plugin.cc lines 139-155). -/
def Plugin.clapProcess (p : Plugin) : Res ProcessStatus :=
  match p.ensureAudioThread "clap_plugin.process" with
  | GuardOut.terminated _ q => Res.terminated q
  | GuardOut.passed q =>
    if q.isActive_ = false then
      Res.ok CLAP_PROCESS_ERROR (q.hostMisbehaving
        "Host called clap_plugin.process() on a deactivated plugin")
    else if q.isProcessing_ = false then
      Res.ok CLAP_PROCESS_ERROR (q.hostMisbehaving
        "Host called clap_plugin.process() without calling clap_plugin.start_processing()")
    else
      let (s, q1) := q.process
      Res.ok s q1

def CLAP_EXT_RENDER : String := "clap/render"

/-- Modelled from the spec: the headers defining the track-info, audio-ports
and params extension ids are not among the sources; the spec says extension
ids are opaque strings forming a byte-for-byte wire contract, so they are
modelled as distinct opaque string constants. -/
def CLAP_EXT_TRACK_INFO : String := "clap/track-info"

def CLAP_EXT_AUDIO_PORTS : String := "clap/audio-ports"

def CLAP_EXT_PARAMS : String := "clap/params"

/-- Plugin.clapExtension (plugin.cc lines 157-171). -/
def Plugin.clapExtension (p : Plugin) (id : String) : Res (Option ExtTable) :=
  match p.ensureMainThread "clap_plugin.extension" with
  | GuardOut.terminated _ q => Res.terminated q
  | GuardOut.passed q =>
    if id = CLAP_EXT_RENDER then
      Res.ok (some ExtTable.pluginRender) q
    else if id = CLAP_EXT_TRACK_INFO then
      Res.ok (some ExtTable.pluginTrackInfo) q
    else if id = CLAP_EXT_AUDIO_PORTS ∧ q.implementsAudioPorts then
      Res.ok (some ExtTable.pluginAudioPorts) q
    else if id = CLAP_EXT_PARAMS ∧ q.implementsParams then
      Res.ok (some ExtTable.pluginParams) q
    else
      let (r, q1) := q.extension id
      Res.ok (r.map ExtTable.authorTable) q1

/-- Plugin.clapAudioPortsSetConfig (plugin.cc lines 256-265).  Note the
source reports misbehavior when active but does not return early. -/
def Plugin.clapAudioPortsSetConfig (p : Plugin) (config_id : Nat) : Res Bool :=
  match p.ensureMainThread "clap_plugin_audio_ports.get_config" with
  | GuardOut.terminated _ q => Res.terminated q
  | GuardOut.passed q =>
    let q1 :=
      if q.isActive then
        q.hostMisbehaving "it is illegal to call clap_audio_ports.set_config if the plugin is active"
      else q
    let (b, q2) := q1.audioPortsSetConfig config_id
    Res.ok b q2

/-- Plugin.clapParamsCount (plugin.cc lines 267-272). -/
def Plugin.clapParamsCount (p : Plugin) : Res Nat :=
  match p.ensureMainThread "clap_plugin_params.count" with
  | GuardOut.terminated _ q => Res.terminated q
  | GuardOut.passed q =>
    let (c, q1) := q.paramsCount
    Res.ok c q1

/-- Plugin.clapParamsIinfo (plugin.cc lines 274-290; the double-i name is
the source's).  param_index is a signed 32-bit value, count an unsigned
32-bit value; the C++ comparison converts param_index to unsigned, modelled
by reducing it modulo 2^32. -/
def Plugin.clapParamsIinfo (p : Plugin) (param_index : Int) : Res Bool :=
  match p.ensureMainThread "clap_plugin_params.info" with
  | GuardOut.terminated _ q => Res.terminated q
  | GuardOut.passed q =>
    match q.clapParamsCount with
    | Res.terminated r => Res.terminated r
    | Res.ok count r =>
      if (param_index % (2 : Int) ^ 32).toNat ≥ count then
        Res.ok false (r.hostMisbehaving
          ("called clap_plugin_params.info with an index out of bounds: " ++
           toString param_index ++ " >= " ++ toString count))
      else
        let (info, r1) := r.paramsInfo param_index
        Res.ok info.isSome r1

/-- The scan loop inside Plugin.isValidParamId (plugin.cc lines 395-402),
structured on the number of remaining indices: at index i, a failed
paramsInfo is skipped, a reported id equal to param_id returns true. -/
def Plugin.isValidParamIdLoop (param_id : Nat) (i : Nat) (remaining : Nat) (p : Plugin) :
    Bool × Plugin :=
  match remaining with
  | 0 => (false, p)
  | Nat.succ n =>
    let (info, q) := p.paramsInfo (Int.ofNat i)
    match info with
    | none => Plugin.isValidParamIdLoop param_id (i + 1) n q
    | some pid =>
      if pid = param_id then (true, q)
      else Plugin.isValidParamIdLoop param_id (i + 1) n q

/-- Plugin.isValidParamId (plugin.cc lines 390-404): linear scan of the
author's parameter table, matching by id. -/
def Plugin.isValidParamId (p : Plugin) (param_id : Nat) : Res Bool :=
  match p.checkMainThread with
  | GuardOut.terminated _ q => Res.terminated q
  | GuardOut.passed q =>
    let (count, q1) := q.paramsCount
    let (b, q2) := Plugin.isValidParamIdLoop param_id 0 count q1
    Res.ok b q2

/-- Plugin.clapParamsEnumValue (plugin.cc lines 292-309). -/
def Plugin.clapParamsEnumValue (p : Plugin) (param_id : Nat) : Res Bool :=
  match p.ensureMainThread "clap_plugin_params.enum_value" with
  | GuardOut.terminated _ q => Res.terminated q
  | GuardOut.passed q =>
    match q.isValidParamId param_id with
    | Res.terminated r => Res.terminated r
    | Res.ok valid r =>
      if valid = false then
        Res.ok false (r.hostMisbehaving
          ("clap_plugin_params.enum_value called with invalid param_id: " ++ toString param_id))
      else
        let (b, r1) := r.paramsEnumValue param_id
        Res.ok b r1

/-- Plugin.clapParamsValue (plugin.cc lines 311-326). -/
def Plugin.clapParamsValue (p : Plugin) (param_id : Nat) : Res Bool :=
  match p.ensureMainThread "clap_plugin_params.value" with
  | GuardOut.terminated _ q => Res.terminated q
  | GuardOut.passed q =>
    match q.isValidParamId param_id with
    | Res.terminated r => Res.terminated r
    | Res.ok valid r =>
      if valid = false then
        Res.ok false (r.hostMisbehaving
          ("clap_plugin_params.value called with invalid param_id: " ++ toString param_id))
      else
        let (b, r1) := r.paramsValue param_id
        Res.ok b r1

/-- Plugin.clapParamsSetValue (plugin.cc lines 328-351): refused outright
while active, then validated by id. -/
def Plugin.clapParamsSetValue (p : Plugin) (param_id : Nat) : Res Bool :=
  match p.ensureMainThread "clap_plugin_params.set_value" with
  | GuardOut.terminated _ q => Res.terminated q
  | GuardOut.passed q =>
    if q.isActive_ then
      Res.ok false (q.hostMisbehaving
        "it is forbidden to call clap_plugin_params.set_value() if the plugin is activated")
    else
      match q.isValidParamId param_id with
      | Res.terminated r => Res.terminated r
      | Res.ok valid r =>
        if valid = false then
          Res.ok false (r.hostMisbehaving
            ("clap_plugin_params.set_value called with invalid param_id: " ++ toString param_id))
        else
          let (b, r1) := r.paramsSetValue param_id
          Res.ok b r1

/-- Plugin.clapParamsValueToText (plugin.cc lines 353-370). -/
def Plugin.clapParamsValueToText (p : Plugin) (param_id : Nat) : Res Bool :=
  match p.ensureMainThread "clap_plugin_params.value_to_text" with
  | GuardOut.terminated _ q => Res.terminated q
  | GuardOut.passed q =>
    match q.isValidParamId param_id with
    | Res.terminated r => Res.terminated r
    | Res.ok valid r =>
      if valid = false then
        Res.ok false (r.hostMisbehaving
          ("clap_plugin_params.value_to_text called with invalid param_id: " ++ toString param_id))
      else
        let (b, r1) := r.paramsValueToText param_id
        Res.ok b r1

/-- Plugin.clapParamsTextToValue (plugin.cc lines 372-388). -/
def Plugin.clapParamsTextToValue (p : Plugin) (param_id : Nat) : Res Bool :=
  match p.ensureMainThread "clap_plugin_params.text_to_value" with
  | GuardOut.terminated _ q => Res.terminated q
  | GuardOut.passed q =>
    match q.isValidParamId param_id with
    | Res.terminated r => Res.terminated r
    | Res.ok valid r =>
      if valid = false then
        Res.ok false (r.hostMisbehaving
          ("clap_plugin_params.text_to_value called with invalid param_id: " ++ toString param_id))
      else
        let (b, r1) := r.paramsTextToValue param_id
        Res.ok b r1

/-- The stored thread-check capability lets the main-thread guards pass:
the capability or its main-thread query is absent, or the query reports
that the caller is on the main thread. -/
def passesMain (tc : Option ThreadCheck) : Bool :=
  match tc with
  | none => true
  | some t =>
    match t.is_main_thread with
    | none => true
    | some b => b

/-- Analogue of passesMain for the audio-thread guard. -/
def passesAudio (tc : Option ThreadCheck) : Bool :=
  match tc with
  | none => true
  | some t =>
    match t.is_audio_thread with
    | none => true
    | some b => b

/-! Concrete inputs used by witnesses and counterexamples. -/

/-- A concrete author whose hooks all succeed, exposing two parameters with
ids 7 and 13. -/
def baseAuthor : Author :=
  { initResult := true
    activateResult := fun _ => true
    startProcessingResult := true
    processResult := ProcessStatus.other 1
    paramsCountValue := 2
    paramsInfoResult := fun i => if i = 0 then some 7 else if i = 1 then some 13 else none
    paramsEnumValueResult := fun _ => true
    paramsValueResult := fun _ => true
    paramsSetValueResult := fun _ => true
    paramsValueToTextResult := fun _ => true
    paramsTextToValueResult := fun _ => true
    audioPortsSetConfigResult := fun _ => true
    implementsAudioPortsFlag := true
    implementsParamsFlag := false
    extensionFallback := fun _ => none }

/-- A freshly constructed instance with no thread-check capability. -/
def pFresh : Plugin := Plugin.construct baseAuthor none

/-- An instance that is Active at 44100 and not processing. -/
def pActive : Plugin :=
  { Plugin.construct baseAuthor none with isActive_ := true, sampleRate_ := 44100 }

/-- An instance that is Active at 44100 and processing. -/
def pProcessing : Plugin :=
  { Plugin.construct baseAuthor none with
    isActive_ := true, sampleRate_ := 44100, isProcessing_ := true }

/-- An author whose init hook fails. -/
def authorInitFails : Author := { baseAuthor with initResult := false }

/-- An author whose activate hook always fails. -/
def authorActivateFails : Author := { baseAuthor with activateResult := fun _ => false }

/-- An instance whose host thread-check capability is incomplete: the
main-thread query is present and reports a wrong thread, the audio-thread
query is a null pointer. -/
def pIncompleteTC : Plugin :=
  { Plugin.construct baseAuthor none with
    hostThreadCheck_ := some { is_main_thread := some false, is_audio_thread := none } }

/-- Whether a guard outcome lets execution continue. -/
def GuardOut.passedQ : GuardOut → Bool
  | GuardOut.passed _ => true
  | GuardOut.terminated _ _ => false

/-- Whether a guard outcome reported a misbehavior diagnostic before
terminating. -/
def GuardOut.reportedQ : GuardOut → Bool
  | GuardOut.passed _ => false
  | GuardOut.terminated r _ => r

/-- The fully wired ABI table, as it stands after clapInit ran. -/
def fullTable : PluginTable :=
  { hasInit := true
    hasDestroy := true
    hasExtension := true
    hasProcess := true
    hasActivate := true
    hasDeactivate := true
    hasStartProcessing := true
    hasStopProcessing := true }

/-!
Helper lemmas shared by the claim theorems.
-/

theorem ensureMainThread_passes (p : Plugin) (m : String)
    (h : passesMain p.hostThreadCheck_ = true) :
    p.ensureMainThread m = GuardOut.passed p := by
  rcases htc : p.hostThreadCheck_ with _ | t
  · simp [Plugin.ensureMainThread, htc]
  · rcases hmt : t.is_main_thread with _ | b
    · simp [Plugin.ensureMainThread, htc, hmt]
    · have hb : b = true := by simpa [passesMain, htc, hmt] using h
      simp [Plugin.ensureMainThread, htc, hmt, hb]

theorem checkMainThread_passes (p : Plugin)
    (h : passesMain p.hostThreadCheck_ = true) :
    p.checkMainThread = GuardOut.passed p := by
  rcases htc : p.hostThreadCheck_ with _ | t
  · simp [Plugin.checkMainThread, htc]
  · rcases hmt : t.is_main_thread with _ | b
    · simp [Plugin.checkMainThread, htc, hmt]
    · have hb : b = true := by simpa [passesMain, htc, hmt] using h
      simp [Plugin.checkMainThread, htc, hmt, hb]

theorem ensureAudioThread_passes (p : Plugin) (m : String)
    (h : passesAudio p.hostThreadCheck_ = true) :
    p.ensureAudioThread m = GuardOut.passed p := by
  rcases htc : p.hostThreadCheck_ with _ | t
  · simp [Plugin.ensureAudioThread, htc]
  · rcases hat : t.is_audio_thread with _ | b
    · simp [Plugin.ensureAudioThread, htc, hat]
    · have hb : b = true := by simpa [passesAudio, htc, hat] using h
      simp [Plugin.ensureAudioThread, htc, hat, hb]

@[simp] theorem hostMisbehaving_fields (p : Plugin) (msg : String) :
    (p.hostMisbehaving msg).author = p.author ∧
    (p.hostMisbehaving msg).hostThreadCheck_ = p.hostThreadCheck_ ∧
    (p.hostMisbehaving msg).isActive_ = p.isActive_ ∧
    (p.hostMisbehaving msg).isProcessing_ = p.isProcessing_ ∧
    (p.hostMisbehaving msg).sampleRate_ = p.sampleRate_ ∧
    (p.hostMisbehaving msg).calls = p.calls ∧
    (p.hostMisbehaving msg).misbehaviorLog = p.misbehaviorLog ++ [msg] :=
  ⟨rfl, rfl, rfl, rfl, rfl, rfl, rfl⟩

/-- Deactivating an active instance (the guard passing): the author's
deactivate hook runs and the state resets. -/
theorem clapDeactivate_of_active (p : Plugin)
    (hm : passesMain p.hostThreadCheck_ = true) (ha : p.isActive_ = true) :
    p.clapDeactivate =
      Res.ok () { p.callHook HookCall.deactivate with isActive_ := false, sampleRate_ := 0 } := by
  simp only [Plugin.clapDeactivate, ensureMainThread_passes p _ hm, ha, Plugin.deactivate]
  rfl

theorem clapDeactivate_of_inactive (p : Plugin)
    (hm : passesMain p.hostThreadCheck_ = true) (ha : p.isActive_ = false) :
    p.clapDeactivate = Res.ok () (p.hostMisbehaving "The plugin was deactivated twice.") := by
  simp only [Plugin.clapDeactivate, ensureMainThread_passes p _ hm, ha]
  rfl

/-- C2: deactivate while Inactive only reports a misbehavior diagnostic;
deactivate while Active invokes the author's deactivate hook and on return
the state is Inactive with sample rate 0. -/
theorem clapDeactivate_lifecycle (p : Plugin)
    (hm : passesMain p.hostThreadCheck_ = true) :
    (p.isActive_ = false →
      ∃ q, p.clapDeactivate = Res.ok () q ∧
        q.isActive_ = false ∧ q.isProcessing_ = p.isProcessing_ ∧
        q.sampleRate_ = p.sampleRate_ ∧ q.calls = p.calls ∧
        q.misbehaviorLog.length = p.misbehaviorLog.length + 1) ∧
    (p.isActive_ = true →
      ∃ q, p.clapDeactivate = Res.ok () q ∧
        q.calls = p.calls ++ [HookCall.deactivate] ∧
        q.isActive_ = false ∧ q.sampleRate_ = 0 ∧
        q.misbehaviorLog = p.misbehaviorLog) := by
  constructor
  · intro ha
    refine ⟨_, clapDeactivate_of_inactive p hm ha, ?_, ?_, ?_, ?_, ?_⟩ <;>
      simp [Plugin.hostMisbehaving, ha]
  · intro ha
    refine ⟨_, clapDeactivate_of_active p hm ha, ?_, ?_, ?_, ?_⟩ <;>
      simp [Plugin.callHook]

/-- Witness for clapDeactivate_lifecycle at a concrete Active instance. -/
theorem clapDeactivate_lifecycle_witness :
    ∃ q, pActive.clapDeactivate = Res.ok () q ∧
      q.calls = pActive.calls ++ [HookCall.deactivate] ∧
      q.isActive_ = false ∧ q.sampleRate_ = 0 ∧
      q.misbehaviorLog = pActive.misbehaviorLog :=
  (clapDeactivate_lifecycle pActive rfl).2 rfl

/-- C4: activation from Inactive: refused with no state change on a
non-positive sample rate; rolled back on author failure; on author success
the state becomes Active with the sample rate recorded. -/
theorem clapActivate_from_inactive (p : Plugin) (sr : Int)
    (hm : passesMain p.hostThreadCheck_ = true)
    (hina : p.isActive_ = false) (hsr0 : p.sampleRate_ = 0) :
    (sr ≤ 0 →
      ∃ q, p.clapActivate sr = Res.ok false q ∧
        q.isActive_ = false ∧ q.sampleRate_ = 0 ∧
        q.misbehaviorLog.length = p.misbehaviorLog.length + 1 ∧ q.calls = p.calls) ∧
    (0 < sr → p.author.activateResult sr = false →
      ∃ q, p.clapActivate sr = Res.ok false q ∧
        q.isActive_ = false ∧ q.sampleRate_ = 0 ∧
        q.calls = p.calls ++ [HookCall.activate sr] ∧
        q.misbehaviorLog = p.misbehaviorLog) ∧
    (0 < sr → p.author.activateResult sr = true →
      ∃ q, p.clapActivate sr = Res.ok true q ∧
        q.isActive_ = true ∧ q.sampleRate_ = sr ∧
        q.calls = p.calls ++ [HookCall.activate sr] ∧
        q.misbehaviorLog = p.misbehaviorLog) := by
  refine ⟨?_, ?_, ?_⟩
  · intro hle
    have heq : p.clapActivate sr = Res.ok false (p.hostMisbehaving
        ("The plugin was activated with an invalid sample rates: " ++ toString sr)) := by
      simp [Plugin.clapActivate, ensureMainThread_passes p _ hm, hina, hle]
    refine ⟨_, heq, ?_, ?_, ?_, ?_⟩ <;> simp [Plugin.hostMisbehaving, hina, hsr0]
  · intro hpos hfail
    have hle : ¬ sr ≤ 0 := not_le.mpr hpos
    have heq : p.clapActivate sr = Res.ok false (p.callHook (HookCall.activate sr)) := by
      simp [Plugin.clapActivate, ensureMainThread_passes p _ hm, hina, hle,
        Plugin.activate, hfail]
    refine ⟨_, heq, ?_, ?_, ?_, ?_⟩ <;> simp [Plugin.callHook, hina, hsr0]
  · intro hpos hok
    have hle : ¬ sr ≤ 0 := not_le.mpr hpos
    have heq : p.clapActivate sr = Res.ok true
        { p.callHook (HookCall.activate sr) with isActive_ := true, sampleRate_ := sr } := by
      simp [Plugin.clapActivate, ensureMainThread_passes p _ hm, hina, hle,
        Plugin.activate, hok]
    refine ⟨_, heq, ?_, ?_, ?_, ?_⟩ <;> simp [Plugin.callHook]

/-- Witness for clapActivate_from_inactive: activate(0) is refused on a
fresh instance, activate(48000) succeeds and records 48000. -/
theorem clapActivate_from_inactive_witness :
    (∃ q, pFresh.clapActivate 0 = Res.ok false q ∧
      q.isActive_ = false ∧ q.sampleRate_ = 0 ∧
      q.misbehaviorLog.length = pFresh.misbehaviorLog.length + 1 ∧ q.calls = pFresh.calls) ∧
    (∃ q, pFresh.clapActivate 48000 = Res.ok true q ∧
      q.isActive_ = true ∧ q.sampleRate_ = 48000 ∧
      q.calls = pFresh.calls ++ [HookCall.activate 48000] ∧
      q.misbehaviorLog = pFresh.misbehaviorLog) :=
  ⟨(clapActivate_from_inactive pFresh 0 rfl rfl rfl).1 (by decide),
   (clapActivate_from_inactive pFresh 48000 rfl rfl rfl).2.2 (by decide) rfl⟩

/-- C1: activating an Active instance with a different positive sample rate
simulates a deactivation (the author's deactivate hook runs before the
fresh activate hook), reports two misbehavior diagnostics, and completes
as a fresh activation: result true, state Active, new rate recorded. -/
theorem clapActivate_active_different_rate (p : Plugin) (sr2 : Int)
    (hm : passesMain p.hostThreadCheck_ = true)
    (hact : p.isActive_ = true) (hne : sr2 ≠ p.sampleRate_) (hpos : 0 < sr2)
    (hok : p.author.activateResult sr2 = true) :
    ∃ q, p.clapActivate sr2 = Res.ok true q ∧
      q.isActive_ = true ∧ q.sampleRate_ = sr2 ∧
      q.calls = p.calls ++ [HookCall.deactivate, HookCall.activate sr2] ∧
      q.misbehaviorLog.length = p.misbehaviorLog.length + 2 := by
  have hle : ¬ sr2 ≤ 0 := not_le.mpr hpos
  set p1 := p.hostMisbehaving "Plugin was activated twice" with hp1
  set p2 := p1.hostMisbehaving
    ("The plugin was activated twice and with different sample rates: " ++
     toString p1.sampleRate_ ++ " and " ++ toString sr2 ++
     ". The host must deactivate the plugin first.\nSimulating deactivation.") with hp2
  have hm2 : passesMain p2.hostThreadCheck_ = true := hm
  have ha2 : p2.isActive_ = true := hact
  have hde := clapDeactivate_of_active p2 hm2 ha2
  have hne1 : sr2 ≠ p1.sampleRate_ := hne
  have hok2 : p2.author.activateResult sr2 = true := hok
  have heq : p.clapActivate sr2 = Res.ok true
      { ({ p2.callHook HookCall.deactivate with
           isActive_ := false, sampleRate_ := 0 }).callHook (HookCall.activate sr2) with
        isActive_ := true, sampleRate_ := sr2 } := by
    simp only [Plugin.clapActivate, ensureMainThread_passes p _ hm, hact, if_true,
      ← hp1, ← hp2, hde, Plugin.activate]
    rw [if_pos hne1]
    simp only [hde]
    have hokd : ({ p2.callHook HookCall.deactivate with
        isActive_ := false, sampleRate_ := 0 } : Plugin).author.activateResult sr2 = true := hok
    simp [hle, hokd, hok2, Plugin.callHook, hok]
  refine ⟨_, heq, rfl, rfl, ?_, ?_⟩
  · simp [hp1, hp2, Plugin.hostMisbehaving, Plugin.callHook]
  · simp [hp1, hp2, Plugin.hostMisbehaving, Plugin.callHook]

/-- Witness for clapActivate_active_different_rate: an instance Active at
44100 re-activated at 48000. -/
theorem clapActivate_active_different_rate_witness :
    ∃ q, pActive.clapActivate 48000 = Res.ok true q ∧
      q.isActive_ = true ∧ q.sampleRate_ = 48000 ∧
      q.calls = pActive.calls ++ [HookCall.deactivate, HookCall.activate 48000] ∧
      q.misbehaviorLog.length = pActive.misbehaviorLog.length + 2 :=
  clapActivate_active_different_rate pActive 48000 rfl rfl (by decide) (by decide) rfl

/-- C3 counterexample: after an init call whose author init hook fails, the
extension/process/activate/deactivate/start/stop slots are assigned, not
null — clapInit wires them before invoking the author's init hook. -/
theorem clapInit_author_failure_slots_cex :
    ((Plugin.construct authorInitFails none).clapInit).value? = some false ∧
    ((Plugin.construct authorInitFails none).clapInit).state.plugin_ = fullTable :=
  ⟨rfl, rfl⟩

/-- C3 amended: the six slots are null from construction until clapInit is
called; clapInit assigns them unconditionally before invoking the author's
init hook, so after any init call, even a failed one, they are assigned. -/
theorem clapInit_slots_assigned (a : Author) (htc : Option ThreadCheck) :
    (Plugin.construct a htc).plugin_ =
      { hasInit := true, hasDestroy := true, hasExtension := false, hasProcess := false,
        hasActivate := false, hasDeactivate := false, hasStartProcessing := false,
        hasStopProcessing := false } ∧
    ((Plugin.construct a htc).clapInit).state.plugin_ = fullTable := by
  refine ⟨rfl, ?_⟩
  rcases htc with _ | t
  · rfl
  · rcases t with ⟨mt, at_⟩
    rcases mt with _ | b
    · rfl
    · cases b <;> rfl

/-- C5: process is refused with the error status, a diagnostic and no
author-hook call unless the instance is Active and processing; otherwise it
returns the author's status. -/
theorem clapProcess_gating (p : Plugin)
    (ha : passesAudio p.hostThreadCheck_ = true) :
    (¬ (p.isActive_ = true ∧ p.isProcessing_ = true) →
      ∃ q, p.clapProcess = Res.ok CLAP_PROCESS_ERROR q ∧
        q.misbehaviorLog.length = p.misbehaviorLog.length + 1 ∧ q.calls = p.calls) ∧
    (p.isActive_ = true → p.isProcessing_ = true →
      p.clapProcess = Res.ok p.author.processResult (p.callHook HookCall.process)) := by
  constructor
  · intro hno
    by_cases hA : p.isActive_ = true
    · have hP : p.isProcessing_ = false := by
        cases hPb : p.isProcessing_
        · rfl
        · exact absurd ⟨hA, hPb⟩ hno
      have heq : p.clapProcess = Res.ok CLAP_PROCESS_ERROR (p.hostMisbehaving
          "Host called clap_plugin.process() without calling clap_plugin.start_processing()") := by
        simp [Plugin.clapProcess, ensureAudioThread_passes p _ ha, hA, hP]
      refine ⟨_, heq, ?_, ?_⟩ <;> simp [Plugin.hostMisbehaving]
    · have hA0 : p.isActive_ = false := by simpa using hA
      have heq : p.clapProcess = Res.ok CLAP_PROCESS_ERROR (p.hostMisbehaving
          "Host called clap_plugin.process() on a deactivated plugin") := by
        simp [Plugin.clapProcess, ensureAudioThread_passes p _ ha, hA0]
      refine ⟨_, heq, ?_, ?_⟩ <;> simp [Plugin.hostMisbehaving]
  · intro hA hP
    simp [Plugin.clapProcess, ensureAudioThread_passes p _ ha, hA, hP, Plugin.process]

/-- Witness for clapProcess_gating: refused on a fresh instance, delegated
on an Active-and-processing instance. -/
theorem clapProcess_gating_witness :
    (∃ q, pFresh.clapProcess = Res.ok CLAP_PROCESS_ERROR q ∧
      q.misbehaviorLog.length = pFresh.misbehaviorLog.length + 1 ∧ q.calls = pFresh.calls) ∧
    pProcessing.clapProcess = Res.ok pProcessing.author.processResult
      (pProcessing.callHook HookCall.process) :=
  ⟨(clapProcess_gating pFresh rfl).1 (by decide),
   (clapProcess_gating pProcessing rfl).2 rfl rfl⟩

/-- C6 counterexample: on an Active instance whose author hook accepts the
config, clapAudioPortsSetConfig returns success and the author hook runs —
the call is not refused. -/
theorem clapAudioPortsSetConfig_while_active_cex :
    pActive.isActive_ = true ∧
    (pActive.clapAudioPortsSetConfig 3).value? = some true ∧
    (pActive.clapAudioPortsSetConfig 3).state.calls = [HookCall.audioPortsSetConfig 3] :=
  ⟨rfl, rfl, rfl⟩

/-- C6 amended: while Active, clapAudioPortsSetConfig reports a misbehavior
diagnostic but still invokes the author's audioPortsSetConfig hook and
returns the hook's result. -/
theorem clapAudioPortsSetConfig_while_active (p : Plugin) (cfg : Nat)
    (hm : passesMain p.hostThreadCheck_ = true) (ha : p.isActive_ = true) :
    ∃ q, p.clapAudioPortsSetConfig cfg = Res.ok (p.author.audioPortsSetConfigResult cfg) q ∧
      q.misbehaviorLog.length = p.misbehaviorLog.length + 1 ∧
      q.calls = p.calls ++ [HookCall.audioPortsSetConfig cfg] := by
  have heq : p.clapAudioPortsSetConfig cfg =
      Res.ok (p.author.audioPortsSetConfigResult cfg)
        ((p.hostMisbehaving
          "it is illegal to call clap_audio_ports.set_config if the plugin is active").callHook
            (HookCall.audioPortsSetConfig cfg)) := by
    simp [Plugin.clapAudioPortsSetConfig, ensureMainThread_passes p _ hm, Plugin.isActive, ha,
      Plugin.audioPortsSetConfig, Plugin.hostMisbehaving, Plugin.callHook]
  refine ⟨_, heq, ?_, ?_⟩ <;> simp [Plugin.hostMisbehaving, Plugin.callHook]

/-- Witness for clapAudioPortsSetConfig_while_active at the concrete Active
instance. -/
theorem clapAudioPortsSetConfig_while_active_witness :
    ∃ q, pActive.clapAudioPortsSetConfig 3 =
        Res.ok (pActive.author.audioPortsSetConfigResult 3) q ∧
      q.misbehaviorLog.length = pActive.misbehaviorLog.length + 1 ∧
      q.calls = pActive.calls ++ [HookCall.audioPortsSetConfig 3] :=
  clapAudioPortsSetConfig_while_active pActive 3 rfl rfl

/-- C8 counterexample: with an incomplete thread-check capability (the
main-thread query present and reporting a wrong thread, the audio-thread
query null), ensureMainThread does not no-op: it reports and terminates. -/
theorem threadGuard_incomplete_capability_cex :
    pIncompleteTC.canUseThreadCheck = false ∧
    (pIncompleteTC.ensureMainThread "clap_plugin.activate").passedQ = false ∧
    (pIncompleteTC.ensureMainThread "clap_plugin.activate").reportedQ = true :=
  ⟨rfl, rfl, rfl⟩

/-- C8 amended: each guard no-ops when the capability, or the specific
thread query that guard needs, is absent (or reports a matching thread);
when its query is present and reports a mismatch, ensureMainThread and
ensureAudioThread report a host-misbehavior diagnostic and terminate, while
checkMainThread terminates without reporting. -/
theorem threadGuards (p : Plugin) (m : String) :
    (p.hostThreadCheck_ = none →
      p.ensureMainThread m = GuardOut.passed p ∧
      p.ensureAudioThread m = GuardOut.passed p ∧
      p.checkMainThread = GuardOut.passed p) ∧
    (∀ t, p.hostThreadCheck_ = some t →
      ((t.is_main_thread = none ∨ t.is_main_thread = some true) →
        p.ensureMainThread m = GuardOut.passed p ∧ p.checkMainThread = GuardOut.passed p) ∧
      (t.is_main_thread = some false →
        p.ensureMainThread m = GuardOut.terminated true
          (p.hostMisbehaving ("Host called the method " ++ m ++
            "() on wrong thread! It must be called on main thread!")) ∧
        p.checkMainThread = GuardOut.terminated false p) ∧
      ((t.is_audio_thread = none ∨ t.is_audio_thread = some true) →
        p.ensureAudioThread m = GuardOut.passed p) ∧
      (t.is_audio_thread = some false →
        p.ensureAudioThread m = GuardOut.terminated true
          (p.hostMisbehaving ("Host called the method " ++ m ++
            "() on wrong thread! It must be called on audio thread!")))) := by
  constructor
  · intro h
    exact ⟨by simp [Plugin.ensureMainThread, h], by simp [Plugin.ensureAudioThread, h],
      by simp [Plugin.checkMainThread, h]⟩
  · intro t ht
    refine ⟨?_, ?_, ?_, ?_⟩
    · rintro (hmt | hmt) <;>
        exact ⟨by simp [Plugin.ensureMainThread, ht, hmt],
          by simp [Plugin.checkMainThread, ht, hmt]⟩
    · intro hmt
      exact ⟨by simp [Plugin.ensureMainThread, ht, hmt],
        by simp [Plugin.checkMainThread, ht, hmt]⟩
    · rintro (hat | hat) <;> simp [Plugin.ensureAudioThread, ht, hat]
    · intro hat
      simp [Plugin.ensureAudioThread, ht, hat]

/-- Witness for threadGuards at the incomplete-capability instance: its
main-thread query reports a mismatch, so ensureMainThread reports and
terminates and checkMainThread terminates silently. -/
theorem threadGuards_witness :
    pIncompleteTC.ensureMainThread "clap_plugin.activate" = GuardOut.terminated true
      (pIncompleteTC.hostMisbehaving ("Host called the method " ++ "clap_plugin.activate" ++
        "() on wrong thread! It must be called on main thread!")) ∧
    pIncompleteTC.checkMainThread = GuardOut.terminated false pIncompleteTC :=
  ((threadGuards pIncompleteTC "clap_plugin.activate").2
    { is_main_thread := some false, is_audio_thread := none } rfl).2.1 rfl

/-- C9: inbound extension dispatch: render and track-info are always served,
audio-ports and params only when the author declares support, and every
other id (including the conditional ids when their predicate is false) is
delegated to the author's fallback and its possibly-absent result is
returned. -/
theorem clapExtension_dispatch (p : Plugin) (id : String)
    (hm : passesMain p.hostThreadCheck_ = true) :
    (p.clapExtension CLAP_EXT_RENDER = Res.ok (some ExtTable.pluginRender) p) ∧
    (p.clapExtension CLAP_EXT_TRACK_INFO = Res.ok (some ExtTable.pluginTrackInfo) p) ∧
    (p.implementsAudioPorts = true →
      p.clapExtension CLAP_EXT_AUDIO_PORTS = Res.ok (some ExtTable.pluginAudioPorts) p) ∧
    (p.implementsParams = true →
      p.clapExtension CLAP_EXT_PARAMS = Res.ok (some ExtTable.pluginParams) p) ∧
    (id ≠ CLAP_EXT_RENDER → id ≠ CLAP_EXT_TRACK_INFO →
     (id = CLAP_EXT_AUDIO_PORTS → p.implementsAudioPorts = false) →
     (id = CLAP_EXT_PARAMS → p.implementsParams = false) →
      p.clapExtension id = Res.ok ((p.author.extensionFallback id).map ExtTable.authorTable)
        (p.callHook (HookCall.extensionHook id))) := by
  have hTR : CLAP_EXT_TRACK_INFO ≠ CLAP_EXT_RENDER := by decide
  have hAR : CLAP_EXT_AUDIO_PORTS ≠ CLAP_EXT_RENDER := by decide
  have hAT : CLAP_EXT_AUDIO_PORTS ≠ CLAP_EXT_TRACK_INFO := by decide
  have hPR : CLAP_EXT_PARAMS ≠ CLAP_EXT_RENDER := by decide
  have hPT : CLAP_EXT_PARAMS ≠ CLAP_EXT_TRACK_INFO := by decide
  have hPA : CLAP_EXT_PARAMS ≠ CLAP_EXT_AUDIO_PORTS := by decide
  refine ⟨?_, ?_, ?_, ?_, ?_⟩
  · simp [Plugin.clapExtension, ensureMainThread_passes p _ hm]
  · simp [Plugin.clapExtension, ensureMainThread_passes p _ hm, hTR]
  · intro himpl
    have himpl2 : p.author.implementsAudioPortsFlag = true := himpl
    simp [Plugin.clapExtension, ensureMainThread_passes p _ hm, hAR, hAT,
      Plugin.implementsAudioPorts, himpl2]
  · intro himpl
    have himpl2 : p.author.implementsParamsFlag = true := himpl
    simp [Plugin.clapExtension, ensureMainThread_passes p _ hm, hPR, hPT, hPA,
      Plugin.implementsParams, himpl2]
  · intro h1 h2 h3 h4
    have hA : ¬ (id = CLAP_EXT_AUDIO_PORTS ∧ p.implementsAudioPorts = true) := by
      rintro ⟨he, hi⟩
      rw [h3 he] at hi
      exact Bool.false_ne_true hi
    have hP : ¬ (id = CLAP_EXT_PARAMS ∧ p.implementsParams = true) := by
      rintro ⟨he, hi⟩
      rw [h4 he] at hi
      exact Bool.false_ne_true hi
    simp [Plugin.clapExtension, ensureMainThread_passes p _ hm, h1, h2, hA, hP,
      Plugin.extension]

/-- Witness for clapExtension_dispatch: the render id is served and an
unknown id goes to the fallback (absent here). -/
theorem clapExtension_dispatch_witness :
    (pFresh.clapExtension CLAP_EXT_RENDER = Res.ok (some ExtTable.pluginRender) pFresh) ∧
    pFresh.clapExtension "clap/unknown" =
      Res.ok ((pFresh.author.extensionFallback "clap/unknown").map ExtTable.authorTable)
        (pFresh.callHook (HookCall.extensionHook "clap/unknown")) :=
  ⟨(clapExtension_dispatch pFresh "clap/unknown" rfl).1,
   (clapExtension_dispatch pFresh "clap/unknown" rfl).2.2.2.2
     (by decide) (by decide) (by decide) (by decide)⟩

/-- C10: clapParamsIinfo compares its signed 32-bit index against the
unsigned count, so every negative index converts to a value at least 2^31
and is rejected (false, one diagnostic, paramsCount queried but the
author's paramsInfo hook never invoked) whenever the author count is below
2^31. -/
theorem clapParamsIinfo_negative_index (p : Plugin) (param_index : Int)
    (hm : passesMain p.hostThreadCheck_ = true)
    (hneg : param_index < 0) (hlo : -(2 : Int) ^ 31 ≤ param_index)
    (hcount : p.author.paramsCountValue < 2 ^ 31) :
    ∃ q, p.clapParamsIinfo param_index = Res.ok false q ∧
      q.misbehaviorLog.length = p.misbehaviorLog.length + 1 ∧
      q.calls = p.calls ++ [HookCall.paramsCount] := by
  have hge : (param_index % (2 : Int) ^ 32).toNat ≥ p.author.paramsCountValue := by
    have h1 : ((2 : Int) ^ 32) = 4294967296 := by norm_num
    have h2 : ((2 : Int) ^ 31) = 2147483648 := by norm_num
    have h4 : (2 : Nat) ^ 31 = 2147483648 := by norm_num
    rw [h1]
    rw [h2] at hlo
    rw [h4] at hcount
    omega
  have heq : p.clapParamsIinfo param_index = Res.ok false
      ((p.callHook HookCall.paramsCount).hostMisbehaving
        ("called clap_plugin_params.info with an index out of bounds: " ++
         toString param_index ++ " >= " ++
         toString (p.callHook HookCall.paramsCount).author.paramsCountValue)) := by
    simp only [Plugin.clapParamsIinfo, ensureMainThread_passes p _ hm,
      Plugin.clapParamsCount, Plugin.paramsCount]
    rw [if_pos hge]
    rfl
  refine ⟨_, heq, ?_, ?_⟩ <;> simp [Plugin.hostMisbehaving, Plugin.callHook]

/-- Witness for clapParamsIinfo_negative_index at index -5 on the fresh
instance (author count 2). -/
theorem clapParamsIinfo_negative_index_witness :
    ∃ q, pFresh.clapParamsIinfo (-5) = Res.ok false q ∧
      q.misbehaviorLog.length = pFresh.misbehaviorLog.length + 1 ∧
      q.calls = pFresh.calls ++ [HookCall.paramsCount] :=
  clapParamsIinfo_negative_index pFresh (-5) rfl (by decide) (by decide) (by decide)

/-- The scan loop leaves every adapter field except the hook-call list
unchanged: it only invokes author paramsInfo hooks. -/
theorem isValidParamIdLoop_fields (pid i remaining : Nat) (p : Plugin) (v : Bool) (q : Plugin)
    (h : Plugin.isValidParamIdLoop pid i remaining p = (v, q)) :
    q.author = p.author ∧ q.hostThreadCheck_ = p.hostThreadCheck_ ∧
    q.isActive_ = p.isActive_ ∧ q.sampleRate_ = p.sampleRate_ ∧
    q.misbehaviorLog = p.misbehaviorLog := by
  induction remaining generalizing i p with
  | zero =>
    simp only [Plugin.isValidParamIdLoop] at h
    cases h
    exact ⟨rfl, rfl, rfl, rfl, rfl⟩
  | succ n ih =>
    simp only [Plugin.isValidParamIdLoop, Plugin.paramsInfo] at h
    cases hres : p.author.paramsInfoResult (Int.ofNat i) with
    | none =>
      simp only [hres] at h
      exact ih (i + 1) (p.callHook (HookCall.paramsInfo (Int.ofNat i))) h
    | some x =>
      by_cases hx : x = pid
      · simp only [hres, if_pos hx] at h
        cases h
        exact ⟨rfl, rfl, rfl, rfl, rfl⟩
      · simp only [hres, if_neg hx] at h
        exact ih (i + 1) (p.callHook (HookCall.paramsInfo (Int.ofNat i))) h

/-- The scan loop does not change the call count of any hook other than
paramsInfo. -/
theorem isValidParamIdLoop_count (pid i remaining : Nat) (p : Plugin) (v : Bool) (q : Plugin)
    (h : Plugin.isValidParamIdLoop pid i remaining p = (v, q)) (c : HookCall)
    (hc : ∀ j, c ≠ HookCall.paramsInfo j) :
    q.calls.count c = p.calls.count c := by
  induction remaining generalizing i p with
  | zero =>
    simp only [Plugin.isValidParamIdLoop] at h
    cases h
    rfl
  | succ n ih =>
    simp only [Plugin.isValidParamIdLoop, Plugin.paramsInfo] at h
    have hstep : (p.callHook (HookCall.paramsInfo (Int.ofNat i))).calls.count c =
        p.calls.count c := by
      have hne : HookCall.paramsInfo (Int.ofNat i) ≠ c := fun he =>
        hc (Int.ofNat i) he.symm
      show (p.calls ++ [HookCall.paramsInfo (Int.ofNat i)]).count c = p.calls.count c
      rw [List.count_append, List.count_singleton', if_neg hne, Nat.add_zero]
    cases hres : p.author.paramsInfoResult (Int.ofNat i) with
    | none =>
      simp only [hres] at h
      rw [ih (i + 1) (p.callHook (HookCall.paramsInfo (Int.ofNat i))) h]
      exact hstep
    | some x =>
      by_cases hx : x = pid
      · simp only [hres, if_pos hx] at h
        cases h
        exact hstep
      · simp only [hres, if_neg hx] at h
        rw [ih (i + 1) (p.callHook (HookCall.paramsInfo (Int.ofNat i))) h]
        exact hstep

/-- The scan loop returns true exactly when some remaining index has a
successful author paramsInfo reporting the sought id. -/
theorem isValidParamIdLoop_true_iff (pid i remaining : Nat) (p : Plugin) (v : Bool) (q : Plugin)
    (h : Plugin.isValidParamIdLoop pid i remaining p = (v, q)) :
    v = true ↔ ∃ j : Nat, j < remaining ∧
      p.author.paramsInfoResult (Int.ofNat (i + j)) = some pid := by
  induction remaining generalizing i p with
  | zero =>
    simp only [Plugin.isValidParamIdLoop] at h
    cases h
    simp
  | succ n ih =>
    simp only [Plugin.isValidParamIdLoop, Plugin.paramsInfo] at h
    cases hres : p.author.paramsInfoResult (Int.ofNat i) with
    | none =>
      simp only [hres] at h
      rw [ih (i + 1) (p.callHook (HookCall.paramsInfo (Int.ofNat i))) h]
      constructor
      · rintro ⟨j, hj, hjeq⟩
        refine ⟨j + 1, by omega, ?_⟩
        have harith : i + (j + 1) = (i + 1) + j := by omega
        rw [harith]
        exact hjeq
      · rintro ⟨j, hj, hjeq⟩
        cases j with
        | zero =>
          rw [Nat.add_zero] at hjeq
          rw [hres] at hjeq
          cases hjeq
        | succ k =>
          refine ⟨k, by omega, ?_⟩
          have harith : (i + 1) + k = i + (k + 1) := by omega
          rw [harith]
          exact hjeq
    | some x =>
      by_cases hx : x = pid
      · simp only [hres, if_pos hx] at h
        cases h
        constructor
        · intro _
          refine ⟨0, by omega, ?_⟩
          rw [Nat.add_zero, hres, hx]
        · intro _
          rfl
      · simp only [hres, if_neg hx] at h
        rw [ih (i + 1) (p.callHook (HookCall.paramsInfo (Int.ofNat i))) h]
        constructor
        · rintro ⟨j, hj, hjeq⟩
          refine ⟨j + 1, by omega, ?_⟩
          have harith : i + (j + 1) = (i + 1) + j := by omega
          rw [harith]
          exact hjeq
        · rintro ⟨j, hj, hjeq⟩
          cases j with
          | zero =>
            rw [Nat.add_zero] at hjeq
            rw [hres] at hjeq
            exact absurd (Option.some.inj hjeq) hx
          | succ k =>
            refine ⟨k, by omega, ?_⟩
            have harith : (i + 1) + k = i + (k + 1) := by omega
            rw [harith]
            exact hjeq

/-- Full characterisation of isValidParamId under a passing main-thread
guard: its value is the linear-scan validity verdict, and the scan touches
only the paramsCount and paramsInfo hooks and no other observable state. -/
theorem isValidParamId_full (p : Plugin) (pid : Nat)
    (hm : passesMain p.hostThreadCheck_ = true) :
    ∃ v q, p.isValidParamId pid = Res.ok v q ∧ q.author = p.author ∧
      q.hostThreadCheck_ = p.hostThreadCheck_ ∧ q.isActive_ = p.isActive_ ∧
      q.sampleRate_ = p.sampleRate_ ∧ q.misbehaviorLog = p.misbehaviorLog ∧
      (∀ c : HookCall, (∀ j, c ≠ HookCall.paramsInfo j) → c ≠ HookCall.paramsCount →
        q.calls.count c = p.calls.count c) ∧
      (v = true ↔ ∃ i2 : Nat, i2 < p.author.paramsCountValue ∧
        p.author.paramsInfoResult (Int.ofNat i2) = some pid) := by
  rcases hl : Plugin.isValidParamIdLoop pid 0 p.author.paramsCountValue
      (p.callHook HookCall.paramsCount) with ⟨v, q⟩
  have heq : p.isValidParamId pid = Res.ok v q := by
    simp only [Plugin.isValidParamId, checkMainThread_passes p hm, Plugin.paramsCount, hl]
  have hf := isValidParamIdLoop_fields pid 0 p.author.paramsCountValue
    (p.callHook HookCall.paramsCount) v q hl
  have hiff := isValidParamIdLoop_true_iff pid 0 p.author.paramsCountValue
    (p.callHook HookCall.paramsCount) v q hl
  refine ⟨v, q, heq, hf.1, hf.2.1, hf.2.2.1, hf.2.2.2.1, hf.2.2.2.2, ?_, ?_⟩
  · intro c hc1 hc2
    have h1 := isValidParamIdLoop_count pid 0 p.author.paramsCountValue
      (p.callHook HookCall.paramsCount) v q hl c hc1
    have h2 : (p.callHook HookCall.paramsCount).calls.count c = p.calls.count c := by
      have hne : HookCall.paramsCount ≠ c := fun he => hc2 he.symm
      show (p.calls ++ [HookCall.paramsCount]).count c = p.calls.count c
      rw [List.count_append, List.count_singleton', if_neg hne, Nat.add_zero]
    rw [h1, h2]
  · simpa using hiff

/-- C7: a parameter id is valid iff some index below the author's count
has a successful paramsInfo reporting it; every id-based query
(paramsEnumValue, paramsValue, paramsSetValue while Inactive,
paramsValueToText, paramsTextToValue) rejects an invalid id with false and
a misbehavior diagnostic without invoking its author hook, and delegates a
valid id to its author hook. -/
theorem params_id_validation (p : Plugin) (pid : Nat)
    (hm : passesMain p.hostThreadCheck_ = true) :
    (((p.isValidParamId pid).value? = some true) ↔
      ∃ i2 : Nat, i2 < p.author.paramsCountValue ∧
        p.author.paramsInfoResult (Int.ofNat i2) = some pid) ∧
    ((¬ ∃ i2 : Nat, i2 < p.author.paramsCountValue ∧
        p.author.paramsInfoResult (Int.ofNat i2) = some pid) →
      (∃ q, p.clapParamsEnumValue pid = Res.ok false q ∧
        q.misbehaviorLog.length = p.misbehaviorLog.length + 1 ∧
        q.calls.count (HookCall.paramsEnumValue pid) =
          p.calls.count (HookCall.paramsEnumValue pid)) ∧
      (∃ q, p.clapParamsValue pid = Res.ok false q ∧
        q.misbehaviorLog.length = p.misbehaviorLog.length + 1 ∧
        q.calls.count (HookCall.paramsValue pid) =
          p.calls.count (HookCall.paramsValue pid)) ∧
      (p.isActive_ = false →
        ∃ q, p.clapParamsSetValue pid = Res.ok false q ∧
          q.misbehaviorLog.length = p.misbehaviorLog.length + 1 ∧
          q.calls.count (HookCall.paramsSetValue pid) =
            p.calls.count (HookCall.paramsSetValue pid)) ∧
      (∃ q, p.clapParamsValueToText pid = Res.ok false q ∧
        q.misbehaviorLog.length = p.misbehaviorLog.length + 1 ∧
        q.calls.count (HookCall.paramsValueToText pid) =
          p.calls.count (HookCall.paramsValueToText pid)) ∧
      (∃ q, p.clapParamsTextToValue pid = Res.ok false q ∧
        q.misbehaviorLog.length = p.misbehaviorLog.length + 1 ∧
        q.calls.count (HookCall.paramsTextToValue pid) =
          p.calls.count (HookCall.paramsTextToValue pid))) ∧
    ((∃ i2 : Nat, i2 < p.author.paramsCountValue ∧
        p.author.paramsInfoResult (Int.ofNat i2) = some pid) →
      (∃ q, p.clapParamsEnumValue pid = Res.ok (p.author.paramsEnumValueResult pid) q ∧
        q.calls.count (HookCall.paramsEnumValue pid) =
          p.calls.count (HookCall.paramsEnumValue pid) + 1) ∧
      (∃ q, p.clapParamsValue pid = Res.ok (p.author.paramsValueResult pid) q ∧
        q.calls.count (HookCall.paramsValue pid) =
          p.calls.count (HookCall.paramsValue pid) + 1) ∧
      (p.isActive_ = false →
        ∃ q, p.clapParamsSetValue pid = Res.ok (p.author.paramsSetValueResult pid) q ∧
          q.calls.count (HookCall.paramsSetValue pid) =
            p.calls.count (HookCall.paramsSetValue pid) + 1) ∧
      (∃ q, p.clapParamsValueToText pid = Res.ok (p.author.paramsValueToTextResult pid) q ∧
        q.calls.count (HookCall.paramsValueToText pid) =
          p.calls.count (HookCall.paramsValueToText pid) + 1) ∧
      (∃ q, p.clapParamsTextToValue pid = Res.ok (p.author.paramsTextToValueResult pid) q ∧
        q.calls.count (HookCall.paramsTextToValue pid) =
          p.calls.count (HookCall.paramsTextToValue pid) + 1)) := by
  obtain ⟨v, q, hiv, hauth, htc2, hact2, hsr2, hlog2, hcnt, hviff⟩ := isValidParamId_full p pid hm
  refine ⟨?_, ?_, ?_⟩
  · rw [hiv]
    constructor
    · intro hsome
      exact hviff.mp (Option.some.inj hsome)
    · intro hex
      show some v = some true
      rw [hviff.mpr hex]
  · intro hnot
    have hv : v = false := by
      cases v
      · rfl
      · exact absurd (hviff.mp rfl) hnot
    subst hv
    refine ⟨?_, ?_, ?_, ?_, ?_⟩
    · have heq : p.clapParamsEnumValue pid = Res.ok false (q.hostMisbehaving
          ("clap_plugin_params.enum_value called with invalid param_id: " ++ toString pid)) := by
        simp only [Plugin.clapParamsEnumValue, ensureMainThread_passes p _ hm, hiv]
        rfl
      refine ⟨_, heq, ?_, ?_⟩
      · simp [Plugin.hostMisbehaving, hlog2]
      · have hc := hcnt (HookCall.paramsEnumValue pid)
          (fun j h => HookCall.noConfusion h) (fun h => HookCall.noConfusion h)
        simpa [Plugin.hostMisbehaving] using hc
    · have heq : p.clapParamsValue pid = Res.ok false (q.hostMisbehaving
          ("clap_plugin_params.value called with invalid param_id: " ++ toString pid)) := by
        simp only [Plugin.clapParamsValue, ensureMainThread_passes p _ hm, hiv]
        rfl
      refine ⟨_, heq, ?_, ?_⟩
      · simp [Plugin.hostMisbehaving, hlog2]
      · have hc := hcnt (HookCall.paramsValue pid)
          (fun j h => HookCall.noConfusion h) (fun h => HookCall.noConfusion h)
        simpa [Plugin.hostMisbehaving] using hc
    · intro hset
      have heq : p.clapParamsSetValue pid = Res.ok false (q.hostMisbehaving
          ("clap_plugin_params.set_value called with invalid param_id: " ++ toString pid)) := by
        simp only [Plugin.clapParamsSetValue, ensureMainThread_passes p _ hm, hset, hiv]
        rfl
      refine ⟨_, heq, ?_, ?_⟩
      · simp [Plugin.hostMisbehaving, hlog2]
      · have hc := hcnt (HookCall.paramsSetValue pid)
          (fun j h => HookCall.noConfusion h) (fun h => HookCall.noConfusion h)
        simpa [Plugin.hostMisbehaving] using hc
    · have heq : p.clapParamsValueToText pid = Res.ok false (q.hostMisbehaving
          ("clap_plugin_params.value_to_text called with invalid param_id: " ++ toString pid)) := by
        simp only [Plugin.clapParamsValueToText, ensureMainThread_passes p _ hm, hiv]
        rfl
      refine ⟨_, heq, ?_, ?_⟩
      · simp [Plugin.hostMisbehaving, hlog2]
      · have hc := hcnt (HookCall.paramsValueToText pid)
          (fun j h => HookCall.noConfusion h) (fun h => HookCall.noConfusion h)
        simpa [Plugin.hostMisbehaving] using hc
    · have heq : p.clapParamsTextToValue pid = Res.ok false (q.hostMisbehaving
          ("clap_plugin_params.text_to_value called with invalid param_id: " ++ toString pid)) := by
        simp only [Plugin.clapParamsTextToValue, ensureMainThread_passes p _ hm, hiv]
        rfl
      refine ⟨_, heq, ?_, ?_⟩
      · simp [Plugin.hostMisbehaving, hlog2]
      · have hc := hcnt (HookCall.paramsTextToValue pid)
          (fun j h => HookCall.noConfusion h) (fun h => HookCall.noConfusion h)
        simpa [Plugin.hostMisbehaving] using hc
  · intro hex
    have hv : v = true := hviff.mpr hex
    subst hv
    refine ⟨?_, ?_, ?_, ?_, ?_⟩
    · have heq : p.clapParamsEnumValue pid = Res.ok (q.author.paramsEnumValueResult pid)
          (q.callHook (HookCall.paramsEnumValue pid)) := by
        simp only [Plugin.clapParamsEnumValue, ensureMainThread_passes p _ hm, hiv,
          Plugin.paramsEnumValue]
        rfl
      rw [hauth] at heq
      refine ⟨_, heq, ?_⟩
      show (q.calls ++ [HookCall.paramsEnumValue pid]).count (HookCall.paramsEnumValue pid) =
        p.calls.count (HookCall.paramsEnumValue pid) + 1
      rw [List.count_append, List.count_singleton', if_pos rfl,
        hcnt (HookCall.paramsEnumValue pid)
          (fun j h => HookCall.noConfusion h) (fun h => HookCall.noConfusion h)]
    · have heq : p.clapParamsValue pid = Res.ok (q.author.paramsValueResult pid)
          (q.callHook (HookCall.paramsValue pid)) := by
        simp only [Plugin.clapParamsValue, ensureMainThread_passes p _ hm, hiv,
          Plugin.paramsValue]
        rfl
      rw [hauth] at heq
      refine ⟨_, heq, ?_⟩
      show (q.calls ++ [HookCall.paramsValue pid]).count (HookCall.paramsValue pid) =
        p.calls.count (HookCall.paramsValue pid) + 1
      rw [List.count_append, List.count_singleton', if_pos rfl,
        hcnt (HookCall.paramsValue pid)
          (fun j h => HookCall.noConfusion h) (fun h => HookCall.noConfusion h)]
    · intro hset
      have heq : p.clapParamsSetValue pid = Res.ok (q.author.paramsSetValueResult pid)
          (q.callHook (HookCall.paramsSetValue pid)) := by
        simp only [Plugin.clapParamsSetValue, ensureMainThread_passes p _ hm, hset, hiv,
          Plugin.paramsSetValue]
        rfl
      rw [hauth] at heq
      refine ⟨_, heq, ?_⟩
      show (q.calls ++ [HookCall.paramsSetValue pid]).count (HookCall.paramsSetValue pid) =
        p.calls.count (HookCall.paramsSetValue pid) + 1
      rw [List.count_append, List.count_singleton', if_pos rfl,
        hcnt (HookCall.paramsSetValue pid)
          (fun j h => HookCall.noConfusion h) (fun h => HookCall.noConfusion h)]
    · have heq : p.clapParamsValueToText pid = Res.ok (q.author.paramsValueToTextResult pid)
          (q.callHook (HookCall.paramsValueToText pid)) := by
        simp only [Plugin.clapParamsValueToText, ensureMainThread_passes p _ hm, hiv,
          Plugin.paramsValueToText]
        rfl
      rw [hauth] at heq
      refine ⟨_, heq, ?_⟩
      show (q.calls ++ [HookCall.paramsValueToText pid]).count (HookCall.paramsValueToText pid) =
        p.calls.count (HookCall.paramsValueToText pid) + 1
      rw [List.count_append, List.count_singleton', if_pos rfl,
        hcnt (HookCall.paramsValueToText pid)
          (fun j h => HookCall.noConfusion h) (fun h => HookCall.noConfusion h)]
    · have heq : p.clapParamsTextToValue pid = Res.ok (q.author.paramsTextToValueResult pid)
          (q.callHook (HookCall.paramsTextToValue pid)) := by
        simp only [Plugin.clapParamsTextToValue, ensureMainThread_passes p _ hm, hiv,
          Plugin.paramsTextToValue]
        rfl
      rw [hauth] at heq
      refine ⟨_, heq, ?_⟩
      show (q.calls ++ [HookCall.paramsTextToValue pid]).count (HookCall.paramsTextToValue pid) =
        p.calls.count (HookCall.paramsTextToValue pid) + 1
      rw [List.count_append, List.count_singleton', if_pos rfl,
        hcnt (HookCall.paramsTextToValue pid)
          (fun j h => HookCall.noConfusion h) (fun h => HookCall.noConfusion h)]

/-- Witness for params_id_validation: on the fresh instance id 7 is valid
and paramsValue delegates; id 99 is invalid and paramsValue rejects. -/
theorem params_id_validation_witness :
    (∃ q, pFresh.clapParamsValue 7 = Res.ok (pFresh.author.paramsValueResult 7) q ∧
      q.calls.count (HookCall.paramsValue 7) = pFresh.calls.count (HookCall.paramsValue 7) + 1) ∧
    (∃ q, pFresh.clapParamsValue 99 = Res.ok false q ∧
      q.misbehaviorLog.length = pFresh.misbehaviorLog.length + 1 ∧
      q.calls.count (HookCall.paramsValue 99) = pFresh.calls.count (HookCall.paramsValue 99)) :=
  ⟨((params_id_validation pFresh 7 rfl).2.2 ⟨0, by decide, by decide⟩).2.1,
   ((params_id_validation pFresh 99 rfl).2.1 (by
      rintro ⟨i, hi, hip⟩
      have hi2 : i < 2 := hi
      interval_cases i <;> exact absurd hip (by decide))).2.1⟩

end Clap
